import Mathlib

/-!
Verification of the response-normalization adapter of the astronomy app
(`src/app.js`) and its surrounding state/UI glue, against the specification
of the repository.  JavaScript values are modelled by `JSValue` (truthiness as in
JS), JSON objects by duplicate-free association lists, and the `fetch`
transport by an oracle `String → FetchOutcome` so that the behaviour of the
adapter on every possible network outcome is a total function.
-/

namespace Apod

/-- A JavaScript value as far as the adapter observes it: the JSON scalar
types plus `undefined` (reading an absent property).  Objects and arrays
nested inside fields are never inspected by the adapter, so they are not
modelled. -/
inductive JSValue where
  | undefined
  | null
  | bool (b : Bool)
  | num (n : Int)
  | str (s : String)
deriving DecidableEq, Repr

/-- JavaScript truthiness for the modelled values: `undefined`, `null`,
`false`, `0` and `""` are falsy, everything else truthy. -/
def JSValue.truthy : JSValue → Bool
  | .undefined => false
  | .null => false
  | .bool b => b
  | .num n => n != 0
  | .str s => s != ""

/-- JavaScript `a || b`: returns `a` when `a` is truthy, else `b`. -/
def jsOr (a b : JSValue) : JSValue :=
  if a.truthy then a else b

/-- A JSON object: an association list from property names to values.
Keys are assumed duplicate-free (JS object literals and parsed JSON
cannot expose duplicate keys); lookup takes the first binding. -/
abbrev JSObject := List (String × JSValue)

/-- The binding for key `k` in object `o`, if present. -/
def jsLookup (o : JSObject) (k : String) : Option JSValue :=
  match o with
  | [] => none
  | (k', v) :: t => if k' = k then some v else jsLookup t k

/-- JavaScript property read `o[k]`: `undefined` when the key is absent. -/
def jsGet (o : JSObject) (k : String) : JSValue :=
  (jsLookup o k).getD .undefined

/-- The `responseMapping` table of a configuration profile: for each logical
field, the field name used by the upstream API (src/app.js lines 412-420
and `API_CONFIGS` in the config file). -/
structure ResponseMapping where
  title : String
  date : String
  explanation : String
  url : String
  hdurl : String
  mediaType : String
  copyright : String
deriving DecidableEq, Repr

/-- The adapter configuration `{baseUrl, apiKey, dateParam, apiKeyParam,
responseMapping}` passed to `AstronomyAPIService`.  `responseMapping` is
`none` when the profile has no mapping object (absent/null). -/
structure ApiConfig where
  baseUrl : String
  apiKey : String
  dateParam : String
  apiKeyParam : String
  responseMapping : Option ResponseMapping
deriving DecidableEq, Repr

/-- `AstronomyAPIService.transformResponse` (src/app.js lines 78-91):
without a mapping the raw data is returned unchanged; with a mapping each
logical field reads the mapped key and falls back (by `||`) to the
same-named key, `media_type` additionally defaulting to the string `image`. -/
def transformResponse (cfg : ApiConfig) (data : JSObject) : JSObject :=
  match cfg.responseMapping with
  | none => data
  | some mapping =>
      [("title", jsOr (jsGet data mapping.title) (jsGet data "title")),
       ("date", jsOr (jsGet data mapping.date) (jsGet data "date")),
       ("explanation", jsOr (jsGet data mapping.explanation) (jsGet data "explanation")),
       ("url", jsOr (jsGet data mapping.url) (jsGet data "url")),
       ("hdurl", jsOr (jsGet data mapping.hdurl) (jsGet data "hdurl")),
       ("media_type", jsOr (jsGet data mapping.mediaType)
          (jsOr (jsGet data "media_type") (.str "image"))),
       ("copyright", jsOr (jsGet data mapping.copyright) (jsGet data "copyright"))]

/-- `AstronomyAPIService.handleApiError` (src/app.js lines 57-68): the four
fixed messages for 429/403/404/500, else the generic template
`API request failed: <status> <statusText>`. -/
def handleApiError (status : Nat) (statusText : String) : String :=
  if status = 429 then
    "Rate limit exceeded. Get your free NASA API key at: https://api.nasa.gov/"
  else if status = 403 then
    "API access forbidden. Please check your API key in config.js"
  else if status = 404 then
    "Picture not found for the selected date"
  else if status = 500 then
    "API server error. Please try again later"
  else
    "API request failed: " ++ toString status ++ " " ++ statusText

/-- One hexadecimal digit, uppercase, as used by URL percent-encoding. -/
def hexDigit (n : Nat) : Char :=
  if n < 10 then Char.ofNat (48 + n) else Char.ofNat (55 + n)

/-- `%XX` escape of one byte. -/
def percentByte (b : Nat) : String :=
  String.mk ['%', hexDigit (b / 16 % 16), hexDigit (b % 16)]

/-- UTF-8 encoding of a Unicode code point, as a list of byte values. -/
def utf8Bytes (n : Nat) : List Nat :=
  if n < 0x80 then [n]
  else if n < 0x800 then
    [0xC0 + n / 0x40, 0x80 + n % 0x40]
  else if n < 0x10000 then
    [0xE0 + n / 0x1000, 0x80 + n / 0x40 % 0x40, 0x80 + n % 0x40]
  else
    [0xF0 + n / 0x40000, 0x80 + n / 0x1000 % 0x40, 0x80 + n / 0x40 % 0x40, 0x80 + n % 0x40]

/-- `application/x-www-form-urlencoded` serialization of one character, as
performed by `URLSearchParams.toString()`: ASCII alphanumerics and
`*`, `-`, `.`, `_` are kept, space becomes `+`, all else is
percent-encoded UTF-8. -/
def urlencodeChar (c : Char) : String :=
  if c = ' ' then "+"
  else if c.isAlphanum || c = '*' || c = '-' || c = '.' || c = '_' then
    String.singleton c
  else
    String.join ((utf8Bytes c.toNat).map percentByte)

/-- `application/x-www-form-urlencoded` serialization of a string. -/
def urlencode (s : String) : String :=
  String.join (s.data.map urlencodeChar)

/-- The parameter list of the JS object literal
`{ [dateParam]: date, [apiKeyParam]: apiKey }`: when the two computed keys
coincide the later entry overwrites the earlier, leaving one binding. -/
def urlParams (cfg : ApiConfig) (date : String) : List (String × String) :=
  if cfg.dateParam = cfg.apiKeyParam then
    [(cfg.apiKeyParam, cfg.apiKey)]
  else
    [(cfg.dateParam, date), (cfg.apiKeyParam, cfg.apiKey)]

/-- `URLSearchParams.toString()`: the parameter pairs serialized as
`key=value`, each side urlencoded, joined by `&`. -/
def serializeParams : List (String × String) → String
  | [] => ""
  | [p] => urlencode p.1 ++ "=" ++ urlencode p.2
  | p :: q :: rest => urlencode p.1 ++ "=" ++ urlencode p.2 ++ "&" ++ serializeParams (q :: rest)

/-- `AstronomyAPIService.buildApiUrl` (src/app.js lines 70-76):
`baseUrl ++ "?" ++ URLSearchParams(params).toString()`. -/
def buildApiUrl (cfg : ApiConfig) (date : String) : String :=
  cfg.baseUrl ++ "?" ++ serializeParams (urlParams cfg date)

/-- An HTTP response as observed by the adapter: status line plus the JSON
body (`none` models a body `response.json()` fails to parse). -/
structure FetchResponse where
  status : Nat
  statusText : String
  body : Option JSObject
deriving DecidableEq, Repr

/-- `response.ok`: status in the 200-299 range. -/
def FetchResponse.ok (r : FetchResponse) : Bool :=
  200 ≤ r.status && r.status < 300

/-- Outcome of one `fetch` call: a transport error (rejected promise) or a
response. -/
inductive FetchOutcome where
  | fail (msg : String)
  | respond (r : FetchResponse)
deriving DecidableEq, Repr

/-- The transport: what one GET of a given URL yields. -/
abbrev Transport := String → FetchOutcome

/-- `AstronomyAPIService.fetchPictureData` (src/app.js lines 40-55),
instrumented with the list of URLs it GETs.  It builds the URL, issues
exactly one fetch, throws the `handleApiError` message on a non-ok status,
propagates transport and JSON-parse errors, and otherwise returns the
transformed response.  (The catch clause logs and rethrows, so the error
value is unchanged.) -/
def fetchPictureData (cfg : ApiConfig) (date : String) (transport : Transport) :
    Except String JSObject × List String :=
  let url := buildApiUrl cfg date
  match transport url with
  | .fail msg => (.error msg, [url])
  | .respond r =>
      if r.ok then
        match r.body with
        | some rawData => (.ok (transformResponse cfg rawData), [url])
        | none => (.error "Unexpected end of JSON input", [url])
      else
        (.error (handleApiError r.status r.statusText), [url])

/-- `AppUtils.validateApiResponse` (src/app.js lines 701-707) at its default
`requiredFields` being the list of `title` and `url`: collects the fields whose
value is falsy (absent or empty) and throws when any is missing, else
returns true. -/
def validateApiResponse (response : JSObject)
    (requiredFields : List String) : Except String Bool :=
  let missing := requiredFields.filter fun field => !(jsGet response field).truthy
  if missing.isEmpty then
    .ok true
  else
    .error ("Invalid API response: missing fields " ++ String.intercalate ", " missing)

/-- The application state held by `AppState` (src/app.js lines 5-14). -/
structure AppState where
  loading : Bool
  error : Option String
  currentPicture : Option JSObject
  selectedDate : String
deriving DecidableEq, Repr

/-- A partial state object passed to `setState`: `none` per field means the
field is absent from the update object. -/
structure StateUpdate where
  loading : Option Bool
  error : Option (Option String)
  currentPicture : Option (Option JSObject)
  selectedDate : Option String
deriving DecidableEq, Repr

/-- `AppState.setState` (src/app.js lines 16-19): spread-merge
`{ ...this.state, ...newState }` — supplied fields overwrite, all other
fields carry over unchanged. -/
def setState (s : AppState) (u : StateUpdate) : AppState :=
  { loading := u.loading.getD s.loading,
    error := u.error.getD s.error,
    currentPicture := u.currentPicture.getD s.currentPicture,
    selectedDate := u.selectedDate.getD s.selectedDate }

/-- `ControlsComponent.loadPicture` (src/app.js lines 352-367): set
`{loading: true, error: null}`, await the fetch, then on success set
`{loading: false, currentPicture, selectedDate}` and on failure set
`{loading: false, error}`. -/
def loadPicture (s : AppState) (cfg : ApiConfig) (date : String)
    (transport : Transport) : AppState :=
  let s1 := setState s ⟨some true, some none, none, none⟩
  match (fetchPictureData cfg date transport).1 with
  | .ok data => setState s1 ⟨some false, none, some (some data), some date⟩
  | .error e => setState s1 ⟨some false, some (some e), none, none⟩

/-- The UI observed for the concurrency claim: how many `fetchPictureData`
calls are pending, and the current value of the date input. -/
structure UIState where
  pending : Nat
  dateInput : String
deriving DecidableEq, Repr

/-- Modelled from the spec: the HTML/CSS that hosts the controls is not under
src/, so event deliverability follows the concurrency model of the spec — a
"single-threaded, event-driven UI" with "no explicit cancellation or
de-duplication of overlapping requests".  Each constructor is one
event-loop turn: a user action runs its handler up to the `await` (starting
at most one fetch, per src/app.js lines 339-350), or one pending fetch
settles.  Nothing in src/app.js disables the controls while a fetch is
pending, so user events remain deliverable then. -/
inductive UIStep : UIState → UIState → Prop where
  | clickFetch (s : UIState) (h : s.dateInput ≠ "") :
      UIStep s { s with pending := s.pending + 1 }
  | clickFetchEmptyDate (s : UIState) (h : s.dateInput = "") :
      UIStep s s
  | clickToday (s : UIState) (today : String) :
      UIStep s { pending := s.pending + 1, dateInput := today }
  | pressEnter (s : UIState) (h : s.dateInput ≠ "") :
      UIStep s { s with pending := s.pending + 1 }
  | fetchSettles (s : UIState) (h : 0 < s.pending) :
      UIStep s { s with pending := s.pending - 1 }

/-- The UI state right after `initializeApp`: the date input holds the date
of today and `loadTodaysPicture` has started the initial fetch
(src/app.js lines 325-329 and 488-492). -/
def initUI (today : String) : UIState :=
  { pending := 1, dateInput := today }

/-- States reachable from the initial UI state by event-loop turns. -/
def UIReachable (today : String) (s : UIState) : Prop :=
  Relation.ReflTransGen UIStep (initUI today) s

/-- The response mapping of the default NASA profile (src/app.js lines 412-420):
every logical field maps to its own name, `mediaType` to `media_type`. -/
def nasaMapping : ResponseMapping :=
  { title := "title", date := "date", explanation := "explanation",
    url := "url", hdurl := "hdurl", mediaType := "media_type",
    copyright := "copyright" }

/-- The default NASA configuration (src/app.js lines 407-421). -/
def nasaConfig : ApiConfig :=
  { baseUrl := "https://api.nasa.gov/planetary/apod", apiKey := "DEMO_KEY",
    dateParam := "date", apiKeyParam := "api_key",
    responseMapping := some nasaMapping }

/-- The response mapping of the example custom profile in the API
configuration file of the repository (`API_CONFIGS.custom.responseMapping`). -/
def customMapping : ResponseMapping :=
  { title := "picture_title", date := "picture_date",
    explanation := "description", url := "image_url",
    hdurl := "high_res_url", mediaType := "type", copyright := "credit" }

/-- The example custom configuration from the API configuration file of the
repository (`API_CONFIGS.custom`). -/
def customConfig : ApiConfig :=
  { baseUrl := "https://your-api.com/astronomy", apiKey := "your-api-key-here",
    dateParam := "date", apiKeyParam := "key",
    responseMapping := some customMapping }

/-- Whether `pat` occurs as a contiguous substring of `l`. -/
def listContainsSub (pat : List Char) : List Char → Bool
  | [] => pat.isEmpty
  | c :: t => pat.isPrefixOf (c :: t) || listContainsSub pat t

/-- A raw JSON response carrying a `url` but no `title` field. -/
def missingTitleRaw : JSObject :=
  [("url", .str "https://example.com/pic.jpg")]

/-- A transport whose every GET succeeds (HTTP 200) with body
`missingTitleRaw`. -/
def missingTitleTransport : Transport :=
  fun _ => .respond { status := 200, statusText := "OK", body := some missingTitleRaw }

/-- A raw response for the custom profile whose mapped title key
`picture_title` is present but holds the empty string, next to a truthy
same-named `title` field. -/
def emptyMappedTitleRaw : JSObject :=
  [("picture_title", .str ""), ("title", .str "Fallback Title")]

/-- A configuration whose date parameter name and API-key parameter name
coincide, collapsing the computed-key object literal in `buildApiUrl`. -/
def collideConfig : ApiConfig :=
  { baseUrl := "https://example.com/api", apiKey := "SECRET",
    dateParam := "k", apiKeyParam := "k", responseMapping := none }

/-- A raw response for the custom profile holding truthy values under the
mapped title and url field names. -/
def mappedValuesRaw : JSObject :=
  [("picture_title", .str "Horsehead"), ("image_url", .str "https://example.com/h.jpg")]

/-! ### Helper lemmas -/

theorem jsGet_of_lookup_none {data : JSObject} {k : String}
    (h : jsLookup data k = none) : jsGet data k = .undefined := by
  simp [jsGet, h]

theorem jsGet_of_lookup_some {data : JSObject} {k : String} {v : JSValue}
    (h : jsLookup data k = some v) : jsGet data k = v := by
  simp [jsGet, h]

theorem jsOr_undefined_left (b : JSValue) : jsOr .undefined b = b := rfl

theorem jsOr_of_truthy {a : JSValue} (b : JSValue) (h : a.truthy = true) :
    jsOr a b = a := by
  simp [jsOr, h]

theorem JSValue.ne_undefined_of_truthy {a : JSValue} (h : a.truthy = true) :
    a ≠ .undefined := by
  intro he
  subst he
  simp [JSValue.truthy] at h

theorem jsOr_ne_undefined {a b : JSValue} (hb : b ≠ .undefined) :
    jsOr a b ≠ .undefined := by
  unfold jsOr
  split
  case isTrue h => exact JSValue.ne_undefined_of_truthy h
  case isFalse h => exact hb

theorem transformResponse_get_title {cfg : ApiConfig} {m : ResponseMapping}
    (data : JSObject) (hm : cfg.responseMapping = some m) :
    jsGet (transformResponse cfg data) "title" =
      jsOr (jsGet data m.title) (jsGet data "title") := by
  simp [transformResponse, hm, jsGet, jsLookup]

theorem transformResponse_get_date {cfg : ApiConfig} {m : ResponseMapping}
    (data : JSObject) (hm : cfg.responseMapping = some m) :
    jsGet (transformResponse cfg data) "date" =
      jsOr (jsGet data m.date) (jsGet data "date") := by
  simp [transformResponse, hm, jsGet, jsLookup]

theorem transformResponse_get_explanation {cfg : ApiConfig} {m : ResponseMapping}
    (data : JSObject) (hm : cfg.responseMapping = some m) :
    jsGet (transformResponse cfg data) "explanation" =
      jsOr (jsGet data m.explanation) (jsGet data "explanation") := by
  simp [transformResponse, hm, jsGet, jsLookup]

theorem transformResponse_get_url {cfg : ApiConfig} {m : ResponseMapping}
    (data : JSObject) (hm : cfg.responseMapping = some m) :
    jsGet (transformResponse cfg data) "url" =
      jsOr (jsGet data m.url) (jsGet data "url") := by
  simp [transformResponse, hm, jsGet, jsLookup]

theorem transformResponse_get_hdurl {cfg : ApiConfig} {m : ResponseMapping}
    (data : JSObject) (hm : cfg.responseMapping = some m) :
    jsGet (transformResponse cfg data) "hdurl" =
      jsOr (jsGet data m.hdurl) (jsGet data "hdurl") := by
  simp [transformResponse, hm, jsGet, jsLookup]

theorem transformResponse_get_media_type {cfg : ApiConfig} {m : ResponseMapping}
    (data : JSObject) (hm : cfg.responseMapping = some m) :
    jsGet (transformResponse cfg data) "media_type" =
      jsOr (jsGet data m.mediaType) (jsOr (jsGet data "media_type") (.str "image")) := by
  simp [transformResponse, hm, jsGet, jsLookup]

theorem transformResponse_get_copyright {cfg : ApiConfig} {m : ResponseMapping}
    (data : JSObject) (hm : cfg.responseMapping = some m) :
    jsGet (transformResponse cfg data) "copyright" =
      jsOr (jsGet data m.copyright) (jsGet data "copyright") := by
  simp [transformResponse, hm, jsGet, jsLookup]

/-! ### C8: no mapping means identity -/

/-- C8: when the configuration carries no `responseMapping`,
`transformResponse` returns the raw response unchanged — no normalization,
no fallback, no `media_type` defaulting. -/
theorem transformResponse_identity_without_mapping
    (cfg : ApiConfig) (data : JSObject) (h : cfg.responseMapping = none) :
    transformResponse cfg data = data := by
  simp [transformResponse, h]

/-- Witness for C8 at a concrete mapping-free configuration and raw object. -/
theorem transformResponse_identity_without_mapping_witness :
    transformResponse collideConfig [("title", .str "T"), ("extra", .num 7)] =
      [("title", .str "T"), ("extra", .num 7)] :=
  transformResponse_identity_without_mapping collideConfig _ rfl

/-! ### C9: media_type defaults to image -/

/-- C9: with a mapping present, when both the mapped mediaType key and the
same-named `media_type` key are absent or falsy the normalized
`media_type` is the string `image`; and the normalized `media_type` is
never `undefined`. -/
theorem transformResponse_media_type_defaulting
    (cfg : ApiConfig) (m : ResponseMapping) (hm : cfg.responseMapping = some m) :
    (∀ data : JSObject,
        (jsGet data m.mediaType).truthy = false →
        (jsGet data "media_type").truthy = false →
        jsGet (transformResponse cfg data) "media_type" = .str "image") ∧
    (∀ data : JSObject,
        jsGet (transformResponse cfg data) "media_type" ≠ .undefined) := by
  constructor
  · intro data h1 h2
    rw [transformResponse_get_media_type data hm]
    simp [jsOr, h1, h2]
  · intro data
    rw [transformResponse_get_media_type data hm]
    exact jsOr_ne_undefined (jsOr_ne_undefined (by simp))

/-- Witness for C9: the NASA profile applied to an empty raw response. -/
theorem transformResponse_media_type_defaulting_witness :
    jsGet (transformResponse nasaConfig []) "media_type" = .str "image" ∧
    jsGet (transformResponse nasaConfig []) "media_type" ≠ .undefined :=
  ⟨(transformResponse_media_type_defaulting nasaConfig nasaMapping rfl).1 [] rfl rfl,
   (transformResponse_media_type_defaulting nasaConfig nasaMapping rfl).2 []⟩

/-! ### C4: HTTP status classification -/

/-- C4: a non-success response yields, via `handleApiError`, the rate-limit
message for 429, the forbidden message for 403, the picture-not-found
message for 404, the server-error message for 500, and for every other
status the generic failure string, which contains the status code; and
the error of the adapter on any non-ok response is exactly that message. -/
theorem handleApiError_classification (status : Nat) (statusText : String) :
    handleApiError 429 statusText =
      "Rate limit exceeded. Get your free NASA API key at: https://api.nasa.gov/" ∧
    handleApiError 403 statusText =
      "API access forbidden. Please check your API key in config.js" ∧
    handleApiError 404 statusText = "Picture not found for the selected date" ∧
    handleApiError 500 statusText = "API server error. Please try again later" ∧
    (status ≠ 429 → status ≠ 403 → status ≠ 404 → status ≠ 500 →
      handleApiError status statusText =
        "API request failed: " ++ toString status ++ " " ++ statusText ∧
      ∃ pre post, handleApiError status statusText = pre ++ toString status ++ post) ∧
    (∀ (cfg : ApiConfig) (date : String) (transport : Transport) (r : FetchResponse),
      transport (buildApiUrl cfg date) = .respond r → r.ok = false →
      (fetchPictureData cfg date transport).1 =
        .error (handleApiError r.status r.statusText)) := by
  refine ⟨rfl, rfl, rfl, rfl, ?_, ?_⟩
  · intro h1 h2 h3 h4
    have hg : handleApiError status statusText =
        "API request failed: " ++ toString status ++ " " ++ statusText := by
      simp [handleApiError, h1, h2, h3, h4]
    refine ⟨hg, "API request failed: ", " " ++ statusText, ?_⟩
    rw [hg]
    simp [String.append_assoc]
  · intro cfg date transport r htr hok
    simp [fetchPictureData, htr, hok]

/-- Witness for C4 at status 418 and a concrete non-ok transport. -/
theorem handleApiError_classification_witness :
    handleApiError 418 "Teapot" =
      "API request failed: " ++ toString (418 : Nat) ++ " " ++ "Teapot" ∧
    (fetchPictureData collideConfig "2024-01-01"
        (fun _ => .respond { status := 418, statusText := "Teapot", body := none })).1 =
      .error (handleApiError 418 "Teapot") :=
  ⟨((handleApiError_classification 418 "Teapot").2.2.2.2.1
      (by decide) (by decide) (by decide) (by decide)).1,
   (handleApiError_classification 418 "Teapot").2.2.2.2.2 collideConfig "2024-01-01"
      (fun _ => .respond { status := 418, statusText := "Teapot", body := none })
      { status := 418, statusText := "Teapot", body := none } rfl (by decide)⟩

/-! ### C6: exactly one request per invocation -/

/-- C6: every invocation of `fetchPictureData` issues exactly one GET — the
request trace is the one built URL — whether the transport fails, the
status is non-success, the body fails to parse, or the call succeeds. -/
theorem fetchPictureData_single_request
    (cfg : ApiConfig) (date : String) (transport : Transport) :
    (fetchPictureData cfg date transport).2 = [buildApiUrl cfg date] := by
  simp only [fetchPictureData]
  cases h : transport (buildApiUrl cfg date) with
  | fail msg => rfl
  | respond r =>
      by_cases hok : r.ok = true
      · cases hb : r.body <;> simp [hok, hb]
      · simp [hok]

/-! ### C10: failure path frame property -/

/-- C10: when the fetch underlying `loadPicture` fails, the resulting state
has `loading = false` and `error` set to the failure message, while
`currentPicture` and `selectedDate` keep their pre-call values —
`setState` merges only the supplied fields. -/
theorem loadPicture_failure_frame
    (s : AppState) (cfg : ApiConfig) (date : String) (transport : Transport)
    (msg : String) (h : (fetchPictureData cfg date transport).1 = .error msg) :
    loadPicture s cfg date transport =
      { loading := false, error := some msg,
        currentPicture := s.currentPicture, selectedDate := s.selectedDate } := by
  simp [loadPicture, h, setState]

/-- Witness for C10: a transport error leaves the previously shown picture
and date untouched. -/
theorem loadPicture_failure_frame_witness :
    loadPicture
        { loading := false, error := none,
          currentPicture := some [("title", .str "Old")], selectedDate := "2023-12-31" }
        nasaConfig "2024-01-01" (fun _ => .fail "network down") =
      { loading := false, error := some "network down",
        currentPicture := some [("title", .str "Old")], selectedDate := "2023-12-31" } :=
  loadPicture_failure_frame
    { loading := false, error := none,
      currentPicture := some [("title", .str "Old")], selectedDate := "2023-12-31" }
    nasaConfig "2024-01-01" (fun _ => .fail "network down") "network down" rfl

/-! ### C1: missing title/url is not rejected by the pipeline -/

/-- C1 counterexample: a 200 response whose body has no `title` field is not
rejected — `fetchPictureData` returns a normalized Picture Record whose
`title` is `undefined`. -/
theorem fetchPictureData_accepts_missing_title :
    (jsGet missingTitleRaw "title").truthy = false ∧
    (fetchPictureData nasaConfig "2024-01-01" missingTitleTransport).1 =
      .ok [("title", .undefined), ("date", .undefined), ("explanation", .undefined),
           ("url", .str "https://example.com/pic.jpg"), ("hdurl", .undefined),
           ("media_type", .str "image"), ("copyright", .undefined)] :=
  ⟨rfl, rfl⟩

/-- C1 (amended): `AppUtils.validateApiResponse` does reject any response
whose `title` or `url` is missing or empty, but the fetch/normalization
pipeline never invokes it: `fetchPictureData` returns a Picture Record
for every ok response with a parseable body, regardless of `title` and
`url`. -/
theorem validateApiResponse_rejects_but_pipeline_accepts :
    (∀ r : JSObject,
        (jsGet r "title").truthy = false ∨ (jsGet r "url").truthy = false →
        ∃ e, validateApiResponse r ["title", "url"] = .error e) ∧
    (∀ (cfg : ApiConfig) (date : String) (transport : Transport)
        (r : FetchResponse) (rawData : JSObject),
        transport (buildApiUrl cfg date) = .respond r → r.ok = true →
        r.body = some rawData →
        (fetchPictureData cfg date transport).1 = .ok (transformResponse cfg rawData)) := by
  constructor
  · intro r h
    cases ht : (jsGet r "title").truthy with
    | false =>
        cases hu : (jsGet r "url").truthy <;>
          exact ⟨_, by simp [validateApiResponse, ht, hu]; rfl⟩
    | true =>
        cases hu : (jsGet r "url").truthy with
        | false => exact ⟨_, by simp [validateApiResponse, ht, hu]; rfl⟩
        | true =>
            exfalso
            rcases h with h | h
            · rw [h] at ht; simp at ht
            · rw [h] at hu; simp at hu
  · intro cfg date transport r rawData htr hok hb
    simp [fetchPictureData, htr, hok, hb]

/-- Witness for C1: the rejection branch and the acceptance branch, both at
the `missingTitleRaw` response. -/
theorem validateApiResponse_rejects_but_pipeline_accepts_witness :
    (∃ e, validateApiResponse missingTitleRaw ["title", "url"] = .error e) ∧
    (fetchPictureData nasaConfig "2024-01-01" missingTitleTransport).1 =
      .ok (transformResponse nasaConfig missingTitleRaw) :=
  ⟨validateApiResponse_rejects_but_pipeline_accepts.1 missingTitleRaw (Or.inl rfl),
   validateApiResponse_rejects_but_pipeline_accepts.2 nasaConfig "2024-01-01"
      missingTitleTransport
      { status := 200, statusText := "OK", body := some missingTitleRaw }
      missingTitleRaw rfl rfl rfl⟩

/-! ### C2: fallback to same-named fields -/

/-- C2 counterexample: the empty raw response contains neither the mapped
mediaType key nor `media_type`, yet the normalized `media_type` is the
string `image`, not `undefined`. -/
theorem transformResponse_media_type_not_undefined :
    jsLookup ([] : JSObject) nasaMapping.mediaType = none ∧
    jsLookup ([] : JSObject) "media_type" = none ∧
    jsGet (transformResponse nasaConfig []) "media_type" = .str "image" ∧
    jsGet (transformResponse nasaConfig []) "media_type" ≠ .undefined := by
  decide

/-- C2 (amended): with a mapping present, for each of the six logical fields
other than mediaType: if the raw response does not contain the mapped key
the normalized field is the value at the same-named key, and if it
contains neither the field is `undefined`.  For mediaType: when the
mapped key is absent the normalized `media_type` is the same-named
`media_type` value when truthy and the string `image` otherwise — in
particular `image`, not `undefined`, when both keys are absent. -/
theorem transformResponse_fallback_fields
    (cfg : ApiConfig) (m : ResponseMapping) (data : JSObject)
    (hm : cfg.responseMapping = some m) :
    (jsLookup data m.title = none →
      jsGet (transformResponse cfg data) "title" = jsGet data "title") ∧
    (jsLookup data m.title = none → jsLookup data "title" = none →
      jsGet (transformResponse cfg data) "title" = .undefined) ∧
    (jsLookup data m.date = none →
      jsGet (transformResponse cfg data) "date" = jsGet data "date") ∧
    (jsLookup data m.date = none → jsLookup data "date" = none →
      jsGet (transformResponse cfg data) "date" = .undefined) ∧
    (jsLookup data m.explanation = none →
      jsGet (transformResponse cfg data) "explanation" = jsGet data "explanation") ∧
    (jsLookup data m.explanation = none → jsLookup data "explanation" = none →
      jsGet (transformResponse cfg data) "explanation" = .undefined) ∧
    (jsLookup data m.url = none →
      jsGet (transformResponse cfg data) "url" = jsGet data "url") ∧
    (jsLookup data m.url = none → jsLookup data "url" = none →
      jsGet (transformResponse cfg data) "url" = .undefined) ∧
    (jsLookup data m.hdurl = none →
      jsGet (transformResponse cfg data) "hdurl" = jsGet data "hdurl") ∧
    (jsLookup data m.hdurl = none → jsLookup data "hdurl" = none →
      jsGet (transformResponse cfg data) "hdurl" = .undefined) ∧
    (jsLookup data m.copyright = none →
      jsGet (transformResponse cfg data) "copyright" = jsGet data "copyright") ∧
    (jsLookup data m.copyright = none → jsLookup data "copyright" = none →
      jsGet (transformResponse cfg data) "copyright" = .undefined) ∧
    (jsLookup data m.mediaType = none →
      jsGet (transformResponse cfg data) "media_type" =
        jsOr (jsGet data "media_type") (.str "image")) := by
  refine ⟨?_, ?_, ?_, ?_, ?_, ?_, ?_, ?_, ?_, ?_, ?_, ?_, ?_⟩
  · intro h
    rw [transformResponse_get_title data hm, jsGet_of_lookup_none h, jsOr_undefined_left]
  · intro h h2
    rw [transformResponse_get_title data hm, jsGet_of_lookup_none h, jsOr_undefined_left,
      jsGet_of_lookup_none h2]
  · intro h
    rw [transformResponse_get_date data hm, jsGet_of_lookup_none h, jsOr_undefined_left]
  · intro h h2
    rw [transformResponse_get_date data hm, jsGet_of_lookup_none h, jsOr_undefined_left,
      jsGet_of_lookup_none h2]
  · intro h
    rw [transformResponse_get_explanation data hm, jsGet_of_lookup_none h, jsOr_undefined_left]
  · intro h h2
    rw [transformResponse_get_explanation data hm, jsGet_of_lookup_none h, jsOr_undefined_left,
      jsGet_of_lookup_none h2]
  · intro h
    rw [transformResponse_get_url data hm, jsGet_of_lookup_none h, jsOr_undefined_left]
  · intro h h2
    rw [transformResponse_get_url data hm, jsGet_of_lookup_none h, jsOr_undefined_left,
      jsGet_of_lookup_none h2]
  · intro h
    rw [transformResponse_get_hdurl data hm, jsGet_of_lookup_none h, jsOr_undefined_left]
  · intro h h2
    rw [transformResponse_get_hdurl data hm, jsGet_of_lookup_none h, jsOr_undefined_left,
      jsGet_of_lookup_none h2]
  · intro h
    rw [transformResponse_get_copyright data hm, jsGet_of_lookup_none h, jsOr_undefined_left]
  · intro h h2
    rw [transformResponse_get_copyright data hm, jsGet_of_lookup_none h, jsOr_undefined_left,
      jsGet_of_lookup_none h2]
  · intro h
    rw [transformResponse_get_media_type data hm, jsGet_of_lookup_none h, jsOr_undefined_left]

/-- Witness for C2: the NASA profile on the empty raw response — `title`
falls through to `undefined` while `media_type` takes the default. -/
theorem transformResponse_fallback_fields_witness :
    jsGet (transformResponse nasaConfig []) "title" = .undefined ∧
    jsGet (transformResponse nasaConfig []) "media_type" =
      jsOr (jsGet ([] : JSObject) "media_type") (.str "image") :=
  ⟨(transformResponse_fallback_fields nasaConfig nasaMapping [] rfl).2.1 rfl rfl,
   (transformResponse_fallback_fields nasaConfig nasaMapping []
      rfl).2.2.2.2.2.2.2.2.2.2.2.2 rfl⟩

/-! ### C3: mapped values are taken when present -/

/-- C3 counterexample: `emptyMappedTitleRaw` contains the mapped title key of
the custom profile, `picture_title` (holding the empty string), yet the
normalized title is the fallback `title` value, not the stored mapped
value. -/
theorem transformResponse_ignores_falsy_mapped_value :
    jsLookup emptyMappedTitleRaw customMapping.title = some (.str "") ∧
    jsGet (transformResponse customConfig emptyMappedTitleRaw) "title" =
      .str "Fallback Title" ∧
    jsGet (transformResponse customConfig emptyMappedTitleRaw) "title" ≠ .str "" := by
  decide

/-- C3 (amended): for every raw response holding a truthy value under each
mapped field name, the fields of the normalized record equal those stored
mapped values.  (A falsy stored value — empty string, null, 0, false —
is passed over by `||` in favour of the fallback, hence the truthiness
requirement.) -/
theorem transformResponse_mapped_values
    (cfg : ApiConfig) (m : ResponseMapping) (data : JSObject)
    (hm : cfg.responseMapping = some m) :
    (∀ v, jsLookup data m.title = some v → v.truthy = true →
      jsGet (transformResponse cfg data) "title" = v) ∧
    (∀ v, jsLookup data m.date = some v → v.truthy = true →
      jsGet (transformResponse cfg data) "date" = v) ∧
    (∀ v, jsLookup data m.explanation = some v → v.truthy = true →
      jsGet (transformResponse cfg data) "explanation" = v) ∧
    (∀ v, jsLookup data m.url = some v → v.truthy = true →
      jsGet (transformResponse cfg data) "url" = v) ∧
    (∀ v, jsLookup data m.hdurl = some v → v.truthy = true →
      jsGet (transformResponse cfg data) "hdurl" = v) ∧
    (∀ v, jsLookup data m.mediaType = some v → v.truthy = true →
      jsGet (transformResponse cfg data) "media_type" = v) ∧
    (∀ v, jsLookup data m.copyright = some v → v.truthy = true →
      jsGet (transformResponse cfg data) "copyright" = v) := by
  refine ⟨?_, ?_, ?_, ?_, ?_, ?_, ?_⟩ <;> intro v h hv
  · rw [transformResponse_get_title data hm, jsGet_of_lookup_some h, jsOr_of_truthy _ hv]
  · rw [transformResponse_get_date data hm, jsGet_of_lookup_some h, jsOr_of_truthy _ hv]
  · rw [transformResponse_get_explanation data hm, jsGet_of_lookup_some h, jsOr_of_truthy _ hv]
  · rw [transformResponse_get_url data hm, jsGet_of_lookup_some h, jsOr_of_truthy _ hv]
  · rw [transformResponse_get_hdurl data hm, jsGet_of_lookup_some h, jsOr_of_truthy _ hv]
  · rw [transformResponse_get_media_type data hm, jsGet_of_lookup_some h, jsOr_of_truthy _ hv]
  · rw [transformResponse_get_copyright data hm, jsGet_of_lookup_some h, jsOr_of_truthy _ hv]

/-- Witness for C3: the custom profile reads `picture_title` and `image_url`
into the normalized `title` and `url`. -/
theorem transformResponse_mapped_values_witness :
    jsGet (transformResponse customConfig mappedValuesRaw) "title" = .str "Horsehead" ∧
    jsGet (transformResponse customConfig mappedValuesRaw) "url" =
      .str "https://example.com/h.jpg" :=
  ⟨(transformResponse_mapped_values customConfig customMapping mappedValuesRaw rfl).1
      (.str "Horsehead") rfl rfl,
   (transformResponse_mapped_values customConfig customMapping mappedValuesRaw rfl).2.2.2.1
      (.str "https://example.com/h.jpg") rfl rfl⟩

/-! ### C5: URL construction -/

/-- C5 counterexample: when `dateParam` and `apiKeyParam` coincide the
computed-key object literal collapses, so the built URL carries only the
API-key binding — the date value appears nowhere in it. -/
theorem buildApiUrl_collapses_on_equal_params :
    buildApiUrl collideConfig "2024-01-01" = "https://example.com/api?k=SECRET" ∧
    listContainsSub ("2024-01-01".data) ((buildApiUrl collideConfig "2024-01-01").data) =
      false := by
  decide

/-- C5 (amended): provided the two configured parameter names differ, the
built URL is the base URL, `?`, and exactly the two URL-encoded
bindings — the date under `dateParam` and the key under `apiKeyParam` —
joined by `&` with no other parameters.  (When the names coincide the
object literal collapses and only the API-key binding survives.) -/
theorem buildApiUrl_two_params
    (cfg : ApiConfig) (date : String) (h : cfg.dateParam ≠ cfg.apiKeyParam) :
    buildApiUrl cfg date =
      cfg.baseUrl ++ "?" ++ urlencode cfg.dateParam ++ "=" ++ urlencode date ++
        "&" ++ urlencode cfg.apiKeyParam ++ "=" ++ urlencode cfg.apiKey := by
  simp [buildApiUrl, urlParams, serializeParams, h, String.append_assoc]

/-- Witness for C5 at the NASA configuration. -/
theorem buildApiUrl_two_params_witness :
    buildApiUrl nasaConfig "2024-01-01" =
      nasaConfig.baseUrl ++ "?" ++ urlencode nasaConfig.dateParam ++ "=" ++
        urlencode "2024-01-01" ++ "&" ++ urlencode nasaConfig.apiKeyParam ++ "=" ++
        urlencode nasaConfig.apiKey :=
  buildApiUrl_two_params nasaConfig "2024-01-01" (by decide)

/-! ### C7: overlapping fetches -/

/-- C7 counterexample: with the initial load still pending, one fetch-button
click starts a second fetch — a UI state with two concurrently pending
`fetchPictureData` calls is reachable, against "at most one outstanding
fetch at any time". -/
theorem two_pending_fetches_reachable :
    UIReachable "2024-01-01" { pending := 2, dateInput := "2024-01-01" } ∧
    ¬ (2 ≤ 1) :=
  ⟨Relation.ReflTransGen.single (UIStep.clickFetch (initUI "2024-01-01") (by decide)),
   by decide⟩

/-- C7 (amended): each event-loop turn starts at most one fetch — the
pending count grows by at most one per step — but overlapping user
actions are neither cancelled nor de-duplicated, so two concurrently
pending calls are reachable. -/
theorem uiStep_starts_at_most_one_fetch
    (s s2 : UIState) (h : UIStep s s2) : s2.pending ≤ s.pending + 1 := by
  cases h
  all_goals simp
  all_goals omega

/-- Witness for C7 at the concrete fetch-click step from the initial state. -/
theorem uiStep_starts_at_most_one_fetch_witness :
    ({ pending := 2, dateInput := "2024-01-01" } : UIState).pending ≤
      (initUI "2024-01-01").pending + 1 :=
  uiStep_starts_at_most_one_fetch (initUI "2024-01-01")
    { pending := 2, dateInput := "2024-01-01" }
    (UIStep.clickFetch (initUI "2024-01-01") (by decide))

end Apod
